import Mathlib

/-!
Shallow embedding of src/src/nativethread.c (a CPython extension that runs a
native function pointer on a detached pthread with asynchronous cancellation).

Python objects are modelled by an identity (a Nat, standing for the PyObject
pointer) together with a value shape; reference-count traffic, callback
invocations, frees and OS calls are recorded as a trace of events, so that
ownership and ordering properties can be stated over the traces.  Outcomes of
external collaborators (malloc, Py_BuildValue, pthread_attr_init,
pthread_create, PyCapsule_New, pthread_cancel, and the point at which an
asynchronous cancellation lands) are oracle parameters, so every execution
path of the C code corresponds to some choice of parameters.
-/

deriving instance DecidableEq for Except

namespace NativeThread

/-- Kinds of Python exception the C code can raise: PyExc_TypeError,
PyExc_ValueError (raised by PyCapsule_GetPointer on a capsule name mismatch),
OverflowError (raised by PyArg_ParseTuple for an out-of-range "L" argument),
PyErr_NoMemory, and PyExc_SystemError, each with its message. -/
inductive PyErr where
  | typeError (msg : String)
  | valueError (msg : String)
  | overflowError
  | memoryError
  | systemError (msg : String)
deriving DecidableEq, Repr

/-- Shape of a Python value as far as this module can observe it: an integer
(what PyArg_ParseTuple "L" accepts), a plain object with a PyCallable_Check
flag, or a PyCapsule carrying a tag name and a boxed pthread id. -/
inductive PyVal where
  | vint (n : Int)
  | vplain (callable : Bool)
  | vcapsule (tag : String) (tid : Nat)
deriving DecidableEq, Repr

/-- A Python object: an identity (the PyObject pointer) plus its value shape. -/
structure PyObj where
  id : Nat
  val : PyVal
deriving DecidableEq, Repr

/-- PyCallable_Check: only plain objects flagged callable pass. -/
def PyObj.isCallable (o : PyObj) : Bool :=
  match o.val with
  | .vplain c => c
  | _ => false

/-- The private capsule tag, THREAD_HANDLE_NAME in the C source. -/
def THREAD_HANDLE_NAME : String := "nativethread.thread_handle"

/-- Observable events of an execution: GIL acquire/release, the Py_BuildValue
"(O)" tuple build (with its success flag and the identity of the packed data
object), a callback invocation PyObject_CallObject(cb, (data,)) recording the
callback identity and the packed argument identity, the Py_DECREFs of the
local tuple and return value, Py_INCREF/Py_DECREF of a tracked object,
free(thr) of the ThreadInfo allocation, the pthread cleanup push/pop and
cancel-state calls, entry/return of the user routine, pthread_create success,
and a pthread_cancel system call. -/
inductive Event where
  | gilEnsure
  | gilRelease
  | buildArgs (data : Nat) (ok : Bool)
  | callCb (cb : Nat) (arg : Nat)
  | decrefArgsTuple
  | decrefRet
  | incref (o : Nat)
  | decref (o : Nat)
  | freeThr
  | cleanupPush
  | cleanupPop
  | setcancelstate (enabled : Bool)
  | setcanceltypeAsync
  | routineStart
  | routineRet
  | spawn
  | pthreadCancel (tid : Nat)
deriving DecidableEq, Repr

/-- The ThreadInfo struct: identities of the four owned PyObject fields and
the raw 64-bit value stored into the function-pointer field. -/
structure ThreadInfo where
  ok_cbak : Nat
  cancel_cbak : Nat
  err_cbak : Nat
  data : Nat
  routine : Int
deriving DecidableEq, Repr

/-- handler_exec(thr, routine): take the GIL, build the one-element argument
tuple from thr->data (buildOk is the Py_BuildValue outcome), call the given
callback on it only if the tuple was built (ret is NULL otherwise; retOk
records whether the call returned non-NULL), DECREF the tuple and return
value when present, DECREF the four owned objects unconditionally, release
the GIL, and free(thr). -/
def handler_exec (buildOk retOk : Bool) (thr : ThreadInfo) (routine : Nat) :
    List Event :=
  [Event.gilEnsure, Event.buildArgs thr.data buildOk]
    ++ (if buildOk then [Event.callCb routine thr.data] else [])
    ++ (if buildOk then [Event.decrefArgsTuple] else [])
    ++ (if buildOk && retOk then [Event.decrefRet] else [])
    ++ [Event.decref thr.ok_cbak, Event.decref thr.cancel_cbak,
        Event.decref thr.err_cbak, Event.decref thr.data,
        Event.gilRelease, Event.freeThr]

/-- nativethread_cancel_handler: the pthread cleanup handler, which drives
handler_exec with the cancel callback of its ThreadInfo argument. -/
def nativethread_cancel_handler (buildOk retOk : Bool) (thr : ThreadInfo) :
    List Event :=
  handler_exec buildOk retOk thr thr.cancel_cbak

/-- When an asynchronous cancellation request is acted on inside
nativethread_run_thread.  Cancelability is enabled and asynchronous from the
setcanceltype call until the PTHREAD_CANCEL_DISABLE call, so a request can
land before the user routine starts, while it runs, or after it returns but
before cancelability is disabled; a request arriving after the disable call
stays pending and never acts (the thread never re-enables cancelability), and
a run may see no request at all. -/
inductive CancelPoint where
  | beforeRoutine
  | duringRoutine
  | afterRoutine
  | afterDisable
  | never
deriving DecidableEq, Repr

/-- nativethread_run_thread: push the cancel cleanup handler, enable
cancelability, make it asynchronous, run the user routine, disable
cancelability, pop the handler without executing it, and drive handler_exec
with the ok callback.  If a cancellation request is acted on before the
disable call, control never returns to this function: the pushed cleanup
handler runs instead, driving handler_exec with the cancel callback. -/
def nativethread_run_thread (cp : CancelPoint) (buildOk retOk : Bool)
    (thr : ThreadInfo) : List Event :=
  let pre := [Event.cleanupPush, Event.setcancelstate true,
              Event.setcanceltypeAsync]
  match cp with
  | .beforeRoutine =>
      pre ++ nativethread_cancel_handler buildOk retOk thr
  | .duringRoutine =>
      pre ++ [Event.routineStart]
        ++ nativethread_cancel_handler buildOk retOk thr
  | .afterRoutine =>
      pre ++ [Event.routineStart, Event.routineRet]
        ++ nativethread_cancel_handler buildOk retOk thr
  | .afterDisable =>
      pre ++ [Event.routineStart, Event.routineRet,
              Event.setcancelstate false, Event.cleanupPop]
        ++ handler_exec buildOk retOk thr thr.ok_cbak
  | .never =>
      pre ++ [Event.routineStart, Event.routineRet,
              Event.setcancelstate false, Event.cleanupPop]
        ++ handler_exec buildOk retOk thr thr.ok_cbak

/-- make_thread_handle: malloc a pthread_t box (PyErr_NoMemory on failure),
store the id, and wrap it in a PyCapsule tagged THREAD_HANDLE_NAME
(PyCapsule_New reports a memory error on failure).  handleObjId is the
identity of the fresh capsule object. -/
def make_thread_handle (tid : Nat) (handleObjId : Nat)
    (mallocOk capsuleOk : Bool) : Except PyErr PyObj :=
  if !mallocOk then .error .memoryError
  else if !capsuleOk then .error .memoryError
  else .ok ⟨handleObjId, .vcapsule THREAD_HANDLE_NAME tid⟩

/-- Outcome of interrupt(args): the Python-level result (None on success,
an exception otherwise) and the trace of events it performed. -/
structure InterruptResult where
  ret : Except PyErr Unit
  events : List Event
deriving DecidableEq, Repr

/-- interrupt(self, args) with the outcome of pthread_cancel as a parameter
(0 means success).  Parses a single "O" argument; rejects non-capsules with
TypeError before any pointer extraction; PyCapsule_GetPointer rejects a
capsule whose tag differs from THREAD_HANDLE_NAME with ValueError; only then
is pthread_cancel called, and a nonzero result raises SystemError.  The
Py_INCREF of the immortal Py_None singleton on the success return is not
tracked. -/
def interrupt (args : List PyObj) (cancelRes : Nat) : InterruptResult :=
  match args with
  | [h] =>
    match h.val with
    | .vcapsule tag tid =>
        if tag ≠ THREAD_HANDLE_NAME then
          ⟨.error (.valueError "PyCapsule_GetPointer called with incorrect name"),
           []⟩
        else if cancelRes ≠ 0 then
          ⟨.error (.systemError "thread could not be cancelled (no such thread)"),
           [Event.pthreadCancel tid]⟩
        else
          ⟨.ok (), [Event.pthreadCancel tid]⟩
    | _ => ⟨.error (.typeError "expected nativethread.thread_handle"), []⟩
  | _ => ⟨.error (.typeError "interrupt takes exactly 1 argument"), []⟩

/-- A well-tagged handle: a capsule whose tag is exactly THREAD_HANDLE_NAME. -/
def isWellTagged (h : PyObj) : Bool :=
  match h.val with
  | .vcapsule tag _ => tag = THREAD_HANDLE_NAME
  | _ => false

/-- PyArg_ParseTuple(args, "LOOOO"): exactly five arguments; the first must
be an integer representable as a signed 64-bit long long (TypeError if not an
integer, OverflowError if out of range); the other four are arbitrary objects
passed as borrowed references. -/
def parse_LOOOO (args : List PyObj) :
    Except PyErr (Int × PyObj × PyObj × PyObj × PyObj) :=
  match args with
  | [a, b, c, d, e] =>
    match a.val with
    | .vint n =>
        if -(2 ^ 63) ≤ n ∧ n < 2 ^ 63 then .ok (n, b, c, d, e)
        else .error .overflowError
    | _ => .error (.typeError "an integer is required")
  | _ => .error (.typeError "do_interruptably takes exactly 5 arguments")

/-- Errno values used by the thread-creation error dispatch. -/
def EPERM : Nat := 1
/-- Errno value for resource exhaustion. -/
def EAGAIN : Nat := 11
/-- Errno value for out of memory. -/
def ENOMEM : Nat := 12

/-- The error raised for a nonzero result of the attr-init / set-detach /
pthread_create chain, matching the errno dispatch in do_interruptably. -/
def threadCreateErr (failed : Nat) : PyErr :=
  if failed = ENOMEM then .memoryError
  else if failed = EAGAIN then
    .systemError "system could not allocate resources for a new thread"
  else if failed = EPERM then
    .systemError "could not start thread: insufficient permissions"
  else .systemError "could not start system thread"

/-- External outcomes do_interruptably depends on: whether
malloc(sizeof(ThreadInfo)) succeeds, the results of pthread_attr_init,
pthread_attr_setdetachstate and pthread_create (0 means success), the thread
id produced by a successful pthread_create, whether the malloc inside
make_thread_handle succeeds, whether PyCapsule_New succeeds, and the identity
of the fresh capsule object. -/
structure LaunchOracle where
  mallocThr : Bool
  attrInitRes : Nat
  setdetachRes : Nat
  createRes : Nat
  newTid : Nat
  handleMallocOk : Bool
  capsuleNewOk : Bool
  handleObjId : Nat
deriving DecidableEq, Repr

/-- Outcome of do_interruptably(args): the Python-level result, the trace of
events performed in the calling thread, and the ThreadInfo handed to a
successfully created thread (none when no thread was spawned). -/
structure LaunchResult where
  ret : Except PyErr PyObj
  events : List Event
  ctx : Option ThreadInfo
deriving DecidableEq, Repr

/-- The chained failed = attr-init / set-detach / create sequence of
do_interruptably: each step runs only if the previous ones returned 0, and
the first nonzero result is kept. -/
def pthread_chain (o : LaunchOracle) : Nat :=
  if o.attrInitRes ≠ 0 then o.attrInitRes
  else if o.setdetachRes ≠ 0 then o.setdetachRes
  else o.createRes

/-- do_interruptably(self, args): malloc a ThreadInfo (PyErr_NoMemory on
failure); parse "LOOOO" into it, freeing it and propagating the parse error
on failure; require the three callbacks to pass PyCallable_Check, freeing the
ThreadInfo and raising TypeError otherwise; Py_INCREF the four objects and
store the parsed 64-bit value as the routine pointer; run the
attr-init / set-detach / pthread_create chain, continuing each step only on
success; on a nonzero chain result free the ThreadInfo and raise the
errno-dispatched error; otherwise the thread is spawned with this ThreadInfo
and the thread id is wrapped by make_thread_handle. -/
def do_interruptably (args : List PyObj) (o : LaunchOracle) : LaunchResult :=
  if !o.mallocThr then ⟨.error .memoryError, [], none⟩
  else
    match parse_LOOOO args with
    | .error e => ⟨.error e, [Event.freeThr], none⟩
    | .ok (n, okc, cc, ec, d) =>
      if !(okc.isCallable && cc.isCallable && ec.isCallable) then
        ⟨.error (.typeError "arguments 2, 3, and 4 must be callable"),
         [Event.freeThr], none⟩
      else
        if pthread_chain o ≠ 0 then
          ⟨.error (threadCreateErr (pthread_chain o)),
           [Event.incref okc.id, Event.incref cc.id,
            Event.incref ec.id, Event.incref d.id, Event.freeThr], none⟩
        else
          match make_thread_handle o.newTid o.handleObjId
              o.handleMallocOk o.capsuleNewOk with
          | .error e =>
              ⟨.error e,
               [Event.incref okc.id, Event.incref cc.id,
                Event.incref ec.id, Event.incref d.id, Event.spawn],
               some ⟨okc.id, cc.id, ec.id, d.id, n⟩⟩
          | .ok h =>
              ⟨.ok h,
               [Event.incref okc.id, Event.incref cc.id,
                Event.incref ec.id, Event.incref d.id, Event.spawn],
               some ⟨okc.id, cc.id, ec.id, d.id, n⟩⟩

/-- Event classifier: callback invocations. -/
def isCall : Event → Bool
  | .callCb _ _ => true
  | _ => false

/-- Event classifier: Py_DECREF of a tracked object. -/
def isDecrefObj : Event → Bool
  | .decref _ => true
  | _ => false

/-- Event classifier: Py_INCREF of a tracked object. -/
def isIncrefObj : Event → Bool
  | .incref _ => true
  | _ => false

/-- Event classifier: the free(thr) of a ThreadInfo allocation. -/
def isFreeEvt : Event → Bool
  | .freeThr => true
  | _ => false

/-- Event classifier: events that free memory or change a reference count
(free of the ThreadInfo, Py_INCREF, Py_DECREF of any kind). -/
def isMutation : Event → Bool
  | .freeThr => true
  | .incref _ => true
  | .decref _ => true
  | .decrefArgsTuple => true
  | .decrefRet => true
  | _ => false

/-- Whether a PyErr is a TypeError. -/
def PyErr.isTypeError : PyErr → Bool
  | .typeError _ => true
  | _ => false

/-- Whether an interrupt call returned with a TypeError raised. -/
def InterruptResult.raisedTypeError (r : InterruptResult) : Bool :=
  match r.ret with
  | .error e => e.isTypeError
  | .ok _ => false

/-- A sample valid 5-argument tuple for do_interruptably: entry point value 7,
three callable callbacks (object identities 1, 2, 3) and a data argument
(identity 4). -/
def sampleArgs : List PyObj :=
  [⟨10, .vint 7⟩, ⟨1, .vplain true⟩, ⟨2, .vplain true⟩,
   ⟨3, .vplain true⟩, ⟨4, .vplain false⟩]

/-- A launch oracle on which every external step succeeds. -/
def sampleOk : LaunchOracle := ⟨true, 0, 0, 0, 99, true, true, 50⟩

/-- Every trace produced by do_interruptably in the calling thread has one of
four shapes: nothing (malloc failed), a bare free (parse or validation
failed), the four Py_INCREFs followed by the free (the pthread chain failed),
or the four Py_INCREFs followed by a successful spawn, the last being the
only shape on which a ThreadInfo is handed to a new thread. -/
theorem launch_events_shape (args : List PyObj) (o : LaunchOracle) :
    ((do_interruptably args o).ctx = none ∧
      ((do_interruptably args o).events = [] ∨
       (do_interruptably args o).events = [Event.freeThr] ∨
       ∃ t : ThreadInfo, (do_interruptably args o).events =
         [Event.incref t.ok_cbak, Event.incref t.cancel_cbak,
          Event.incref t.err_cbak, Event.incref t.data, Event.freeThr])) ∨
    (∃ t : ThreadInfo, (do_interruptably args o).ctx = some t ∧
      (do_interruptably args o).events =
        [Event.incref t.ok_cbak, Event.incref t.cancel_cbak,
         Event.incref t.err_cbak, Event.incref t.data, Event.spawn]) := by
  unfold do_interruptably
  split
  · exact Or.inl ⟨rfl, Or.inl rfl⟩
  · split
    · exact Or.inl ⟨rfl, Or.inr (Or.inl rfl)⟩
    · split
      · exact Or.inl ⟨rfl, Or.inr (Or.inl rfl)⟩
      · split
        · exact Or.inl ⟨rfl, Or.inr (Or.inr ⟨⟨_, _, _, _, 0⟩, rfl⟩)⟩
        · split
          · exact Or.inr ⟨_, rfl, rfl⟩
          · exact Or.inr ⟨_, rfl, rfl⟩

/-- interrupt performs no mutation of memory or reference counts on any path
and never invokes a callback: its trace is at most one pthread_cancel call. -/
theorem interrupt_trace_clean (args : List PyObj) (r : Nat) :
    (interrupt args r).events.filter isMutation = [] ∧
    (interrupt args r).events.filter isCall = [] ∧
    (interrupt args r).events.filter isFreeEvt = [] := by
  unfold interrupt
  split <;> first
    | exact ⟨rfl, rfl, rfl⟩
    | (split <;> first
        | exact ⟨rfl, rfl, rfl⟩
        | (split <;> first
            | exact ⟨rfl, rfl, rfl⟩
            | (split <;> exact ⟨rfl, rfl, rfl⟩)))

/-- On a successful launch the constructed ThreadInfo stores the identities
of the three callbacks and the data argument and the parsed 64-bit entry
value. -/
theorem launch_success_ctx (aid : Nat) (n : Int) (b c d e : PyObj)
    (o : LaunchOracle) (hm : o.mallocThr = true)
    (hn : -(2 ^ 63) ≤ n ∧ n < 2 ^ 63)
    (hc : (b.isCallable && c.isCallable && d.isCallable) = true)
    (hchain : pthread_chain o = 0) :
    (do_interruptably [⟨aid, PyVal.vint n⟩, b, c, d, e] o).ctx =
      some ⟨b.id, c.id, d.id, e.id, n⟩ := by
  obtain ⟨h1, h2⟩ := hn
  norm_num at h1 h2
  simp only [Bool.and_eq_true] at hc
  obtain ⟨⟨hb, hcc⟩, hd⟩ := hc
  cases hmt : make_thread_handle o.newTid o.handleObjId
      o.handleMallocOk o.capsuleNewOk <;>
    simp [do_interruptably, parse_LOOOO, hm, h1, h2, hb, hcc, hd, hchain, hmt]


theorem handler_exec_call_split (retOk : Bool) (thr : ThreadInfo) (r : Nat) :
    ∃ l1 l2 : List Event,
      handler_exec true retOk thr r = l1 ++ Event.callCb r thr.data :: l2 ∧
      l1.filter isCall = [] ∧ l2.filter isCall = [] ∧
      l1.filter isFreeEvt = [] ∧ l2.filter isFreeEvt = [Event.freeThr] := by
  cases retOk
  · exact ⟨[Event.gilEnsure, Event.buildArgs thr.data true],
      [Event.decrefArgsTuple, Event.decref thr.ok_cbak,
       Event.decref thr.cancel_cbak, Event.decref thr.err_cbak,
       Event.decref thr.data, Event.gilRelease, Event.freeThr],
      rfl, rfl, rfl, rfl, rfl⟩
  · exact ⟨[Event.gilEnsure, Event.buildArgs thr.data true],
      [Event.decrefArgsTuple, Event.decrefRet, Event.decref thr.ok_cbak,
       Event.decref thr.cancel_cbak, Event.decref thr.err_cbak,
       Event.decref thr.data, Event.gilRelease, Event.freeThr],
      rfl, rfl, rfl, rfl, rfl⟩

/-- C3 (amended): any value passed to interrupt that is not a capsule
carrying the private THREAD_HANDLE_NAME tag fails before any pthread_cancel
call (empty trace): a non-capsule value (such as a raw integer) raises the
module's own TypeError, while a capsule with a mismatched tag name raises
the ValueError that PyCapsule_GetPointer produces. -/
theorem interrupt_rejects_untagged (h : PyObj) (r : Nat)
    (hw : isWellTagged h = false) :
    ((∀ (tag : String) (tid : Nat), h.val ≠ PyVal.vcapsule tag tid) →
      (interrupt [h] r).ret =
        .error (.typeError "expected nativethread.thread_handle")) ∧
    (∀ (tag : String) (tid : Nat), h.val = PyVal.vcapsule tag tid →
      (interrupt [h] r).ret =
        .error (.valueError "PyCapsule_GetPointer called with incorrect name")) ∧
    (interrupt [h] r).events = [] := by
  obtain ⟨hid, hval⟩ := h
  cases hval with
  | vint n =>
      exact ⟨fun _ => rfl, fun tag tid hcap => PyVal.noConfusion hcap, rfl⟩
  | vplain c =>
      exact ⟨fun _ => rfl, fun tag tid hcap => PyVal.noConfusion hcap, rfl⟩
  | vcapsule tag tid =>
      have ht : tag ≠ THREAD_HANDLE_NAME := by
        simpa [isWellTagged] using hw
      refine ⟨fun hnc => absurd rfl (hnc tag tid), fun tg td hcap => ?_, ?_⟩
      · simp [interrupt, ht]
      · simp [interrupt, ht]

theorem interrupt_rejects_untagged_witness :
    (interrupt [⟨5, PyVal.vint 42⟩] 0).ret =
      .error (.typeError "expected nativethread.thread_handle") ∧
    (interrupt [⟨6, PyVal.vcapsule "wrong.tag" 9⟩] 0).ret =
      .error (.valueError "PyCapsule_GetPointer called with incorrect name") ∧
    (interrupt [⟨6, PyVal.vcapsule "wrong.tag" 9⟩] 0).events = [] :=
  ⟨(interrupt_rejects_untagged ⟨5, PyVal.vint 42⟩ 0 (by decide)).1
      (fun tag tid hcap => PyVal.noConfusion hcap),
   (interrupt_rejects_untagged ⟨6, PyVal.vcapsule "wrong.tag" 9⟩ 0
      (by decide)).2.1 "wrong.tag" 9 rfl,
   (interrupt_rejects_untagged ⟨6, PyVal.vcapsule "wrong.tag" 9⟩ 0
      (by decide)).2.2⟩

/-- C3 counterexample: a capsule with a mismatched tag name does not raise
TypeError as the claim states: PyCapsule_GetPointer raises ValueError (the
call still returns before any pthread_cancel, with an empty trace). -/
theorem interrupt_rejects_untagged_cex :
    isWellTagged ⟨6, PyVal.vcapsule "wrong.tag" 9⟩ = false ∧
    (interrupt [⟨6, PyVal.vcapsule "wrong.tag" 9⟩] 0).raisedTypeError =
      false ∧
    (interrupt [⟨6, PyVal.vcapsule "wrong.tag" 9⟩] 0).ret =
      .error (.valueError "PyCapsule_GetPointer called with incorrect name") ∧
    (interrupt [⟨6, PyVal.vcapsule "wrong.tag" 9⟩] 0).events = [] := by
  decide

/-- C6: if any of the three callback arguments fails PyCallable_Check, the
launch frees the ThreadInfo, raises the validation TypeError, retains no
reference and spawns no thread. -/
theorem launch_noncallable_rejected (aid : Nat) (n : Int) (b c d e : PyObj)
    (o : LaunchOracle) (hm : o.mallocThr = true)
    (hn : -(2 ^ 63) ≤ n ∧ n < 2 ^ 63)
    (hc : (b.isCallable && c.isCallable && d.isCallable) = false) :
    do_interruptably [⟨aid, PyVal.vint n⟩, b, c, d, e] o =
      ⟨.error (.typeError "arguments 2, 3, and 4 must be callable"),
       [Event.freeThr], none⟩ := by
  obtain ⟨h1, h2⟩ := hn
  norm_num at h1 h2
  simp [do_interruptably, parse_LOOOO, hm, h1, h2, hc]

theorem launch_noncallable_rejected_witness :
    do_interruptably
        [⟨10, PyVal.vint 7⟩, ⟨1, PyVal.vplain true⟩, ⟨2, PyVal.vplain false⟩,
         ⟨3, PyVal.vplain true⟩, ⟨4, PyVal.vplain false⟩] sampleOk =
      ⟨.error (.typeError "arguments 2, 3, and 4 must be callable"),
       [Event.freeThr], none⟩ :=
  launch_noncallable_rejected 10 7 ⟨1, PyVal.vplain true⟩
    ⟨2, PyVal.vplain false⟩ ⟨3, PyVal.vplain true⟩ ⟨4, PyVal.vplain false⟩
    sampleOk rfl (by decide) rfl


/-- C7: a well-tagged handle whose thread id pthread_cancel rejects makes
interrupt raise the distinct no-such-thread SystemError, which is not a
TypeError; and interrupt never frees memory or touches a reference count on
any path, succeeding or failing. -/
theorem interrupt_unknown_thread_error (oid tid r : Nat) (hr : r ≠ 0) :
    (interrupt [⟨oid, PyVal.vcapsule THREAD_HANDLE_NAME tid⟩] r).ret =
      .error (.systemError "thread could not be cancelled (no such thread)") ∧
    PyErr.isTypeError
      (.systemError "thread could not be cancelled (no such thread)") = false ∧
    (interrupt [⟨oid, PyVal.vcapsule THREAD_HANDLE_NAME tid⟩] r).events =
      [Event.pthreadCancel tid] ∧
    (∀ (args : List PyObj) (q : Nat),
      (interrupt args q).events.filter isMutation = []) := by
  refine ⟨?_, rfl, ?_, ?_⟩
  · simp [interrupt, hr]
  · simp [interrupt, hr]
  · intro args q
    exact (interrupt_trace_clean args q).1

theorem interrupt_unknown_thread_error_witness :
    (interrupt [⟨5, PyVal.vcapsule THREAD_HANDLE_NAME 9⟩] 3).ret =
      .error (.systemError "thread could not be cancelled (no such thread)") ∧
    PyErr.isTypeError
      (.systemError "thread could not be cancelled (no such thread)") = false ∧
    (interrupt [⟨5, PyVal.vcapsule THREAD_HANDLE_NAME 9⟩] 3).events =
      [Event.pthreadCancel 9] ∧
    (∀ (args : List PyObj) (q : Nat),
      (interrupt args q).events.filter isMutation = []) :=
  interrupt_unknown_thread_error 5 9 3 (by decide)

/-- C9: if the Py_BuildValue tuple allocation in handler_exec fails, no
callback at all is invoked, yet the four owned objects are still released,
the ThreadInfo is still freed exactly once, and the free is the last step. -/
theorem handler_exec_buildfail_drops_callback (retOk : Bool)
    (thr : ThreadInfo) (r : Nat) :
    (handler_exec false retOk thr r).filter isCall = [] ∧
    (handler_exec false retOk thr r).filter isDecrefObj =
      [Event.decref thr.ok_cbak, Event.decref thr.cancel_cbak,
       Event.decref thr.err_cbak, Event.decref thr.data] ∧
    (handler_exec false retOk thr r).filter isFreeEvt = [Event.freeThr] ∧
    (handler_exec false retOk thr r).getLast? = some Event.freeThr := by
  cases retOk <;> exact ⟨rfl, rfl, rfl, rfl⟩

/-- C10: the entry_point argument is parsed as a signed 64-bit integer: a
non-integer first argument fails with TypeError, an out-of-range integer
fails with OverflowError, both freeing the ThreadInfo with no reference
retained and no thread spawned; an in-range integer is stored bit-exactly as
the routine field of the ThreadInfo a successful spawn hands off. -/
theorem launch_entry_point_parse :
    (∀ (a b c d e : PyObj) (o : LaunchOracle),
      o.mallocThr = true → (∀ n : Int, a.val ≠ PyVal.vint n) →
      do_interruptably [a, b, c, d, e] o =
        ⟨.error (.typeError "an integer is required"),
         [Event.freeThr], none⟩) ∧
    (∀ (aid : Nat) (n : Int) (b c d e : PyObj) (o : LaunchOracle),
      o.mallocThr = true → ¬(-(2 ^ 63) ≤ n ∧ n < 2 ^ 63) →
      do_interruptably [⟨aid, PyVal.vint n⟩, b, c, d, e] o =
        ⟨.error .overflowError, [Event.freeThr], none⟩) ∧
    (∀ (aid : Nat) (n : Int) (b c d e : PyObj) (o : LaunchOracle),
      o.mallocThr = true → (-(2 ^ 63) ≤ n ∧ n < 2 ^ 63) →
      (b.isCallable && c.isCallable && d.isCallable) = true →
      pthread_chain o = 0 →
      (do_interruptably [⟨aid, PyVal.vint n⟩, b, c, d, e] o).ctx =
        some ⟨b.id, c.id, d.id, e.id, n⟩) := by
  refine ⟨?_, ?_, ?_⟩
  · intro a b c d e o hm ha
    obtain ⟨aid, aval⟩ := a
    cases aval with
    | vint n => exact absurd rfl (ha n)
    | vplain cb => simp [do_interruptably, parse_LOOOO, hm]
    | vcapsule tag tid => simp [do_interruptably, parse_LOOOO, hm]
  · intro aid n b c d e o hm hn
    have hn2 : ¬((-9223372036854775808 : Int) ≤ n ∧ n < 9223372036854775808) := by
      simpa using hn
    simp [do_interruptably, parse_LOOOO, hm, hn2]
  · intro aid n b c d e o hm hn hc hchain
    exact launch_success_ctx aid n b c d e o hm hn hc hchain

theorem launch_entry_point_parse_witness :
    do_interruptably
        [⟨10, PyVal.vplain false⟩, ⟨1, PyVal.vplain true⟩,
         ⟨2, PyVal.vplain true⟩, ⟨3, PyVal.vplain true⟩,
         ⟨4, PyVal.vplain false⟩] sampleOk =
      ⟨.error (.typeError "an integer is required"), [Event.freeThr], none⟩ ∧
    do_interruptably
        [⟨10, PyVal.vint (2 ^ 63)⟩, ⟨1, PyVal.vplain true⟩,
         ⟨2, PyVal.vplain true⟩, ⟨3, PyVal.vplain true⟩,
         ⟨4, PyVal.vplain false⟩] sampleOk =
      ⟨.error .overflowError, [Event.freeThr], none⟩ ∧
    (do_interruptably sampleArgs sampleOk).ctx = some ⟨1, 2, 3, 4, 7⟩ :=
  ⟨launch_entry_point_parse.1 ⟨10, PyVal.vplain false⟩ ⟨1, PyVal.vplain true⟩
      ⟨2, PyVal.vplain true⟩ ⟨3, PyVal.vplain true⟩ ⟨4, PyVal.vplain false⟩
      sampleOk rfl (fun n h => PyVal.noConfusion h),
   launch_entry_point_parse.2.1 10 (2 ^ 63) ⟨1, PyVal.vplain true⟩
      ⟨2, PyVal.vplain true⟩ ⟨3, PyVal.vplain true⟩ ⟨4, PyVal.vplain false⟩
      sampleOk rfl (by decide),
   launch_entry_point_parse.2.2 10 7 ⟨1, PyVal.vplain true⟩
      ⟨2, PyVal.vplain true⟩ ⟨3, PyVal.vplain true⟩ ⟨4, PyVal.vplain false⟩
      sampleOk rfl (by decide) rfl rfl⟩


theorem prepend_call_split (pre : List Event) (retOk : Bool)
    (thr : ThreadInfo) (r : Nat)
    (hc : pre.filter isCall = []) (hf : pre.filter isFreeEvt = []) :
    ∃ l1 l2 : List Event,
      pre ++ handler_exec true retOk thr r =
        l1 ++ Event.callCb r thr.data :: l2 ∧
      l1.filter isCall = [] ∧ l2.filter isCall = [] ∧
      l1.filter isFreeEvt = [] ∧ l2.filter isFreeEvt = [Event.freeThr] := by
  obtain ⟨l1, l2, heq, hc1, hc2, hf1, hf2⟩ := handler_exec_call_split retOk thr r
  refine ⟨pre ++ l1, l2, ?_, ?_, hc2, ?_, hf2⟩
  · rw [heq, List.append_assoc]
  · rw [List.filter_append, hc, hc1]; rfl
  · rw [List.filter_append, hf, hf1]; rfl

/-- C4: step order of the spawned thread entry routine. -/
theorem run_thread_step_order (buildOk retOk : Bool) (thr : ThreadInfo) :
    (nativethread_run_thread .never buildOk retOk thr =
      [Event.cleanupPush, Event.setcancelstate true, Event.setcanceltypeAsync,
       Event.routineStart, Event.routineRet, Event.setcancelstate false,
       Event.cleanupPop] ++ handler_exec buildOk retOk thr thr.ok_cbak) ∧
    (nativethread_run_thread .afterDisable buildOk retOk thr =
      [Event.cleanupPush, Event.setcancelstate true, Event.setcanceltypeAsync,
       Event.routineStart, Event.routineRet, Event.setcancelstate false,
       Event.cleanupPop] ++ handler_exec buildOk retOk thr thr.ok_cbak) ∧
    (nativethread_run_thread .beforeRoutine buildOk retOk thr =
      [Event.cleanupPush, Event.setcancelstate true, Event.setcanceltypeAsync]
        ++ nativethread_cancel_handler buildOk retOk thr) ∧
    (nativethread_run_thread .duringRoutine buildOk retOk thr =
      [Event.cleanupPush, Event.setcancelstate true, Event.setcanceltypeAsync,
       Event.routineStart] ++ nativethread_cancel_handler buildOk retOk thr) ∧
    (nativethread_run_thread .afterRoutine buildOk retOk thr =
      [Event.cleanupPush, Event.setcancelstate true, Event.setcanceltypeAsync,
       Event.routineStart, Event.routineRet]
        ++ nativethread_cancel_handler buildOk retOk thr) ∧
    (nativethread_cancel_handler buildOk retOk thr =
      handler_exec buildOk retOk thr thr.cancel_cbak) ∧
    (∀ cp : CancelPoint, cp ≠ CancelPoint.afterDisable →
      cp ≠ CancelPoint.never →
      Event.setcancelstate false ∉
        nativethread_run_thread cp buildOk retOk thr ∧
      Event.cleanupPop ∉ nativethread_run_thread cp buildOk retOk thr) := by
  refine ⟨rfl, rfl, rfl, rfl, rfl, rfl, ?_⟩
  intro cp h1 h2
  cases cp
  case afterDisable => exact absurd rfl h1
  case never => exact absurd rfl h2
  all_goals
    cases buildOk <;> cases retOk <;>
      simp [nativethread_run_thread, nativethread_cancel_handler, handler_exec]

theorem run_thread_step_order_witness :
    Event.setcancelstate false ∉
      nativethread_run_thread CancelPoint.duringRoutine true true
        ⟨1, 2, 3, 4, 7⟩ ∧
    Event.cleanupPop ∉
      nativethread_run_thread CancelPoint.duringRoutine true true
        ⟨1, 2, 3, 4, 7⟩ :=
  (run_thread_step_order true true ⟨1, 2, 3, 4, 7⟩).2.2.2.2.2.2
    CancelPoint.duringRoutine (by decide) (by decide)

/-- C8: handler_exec releases the four owned objects exactly once each,
frees the ThreadInfo exactly once and as its last step, a run of the spawned
thread frees the ThreadInfo exactly once on every path, and a launch that
spawned a thread frees nothing in the launching call. -/
theorem handler_exec_releases_all (buildOk retOk : Bool) (thr : ThreadInfo)
    (r : Nat) :
    (handler_exec buildOk retOk thr r).filter isDecrefObj =
      [Event.decref thr.ok_cbak, Event.decref thr.cancel_cbak,
       Event.decref thr.err_cbak, Event.decref thr.data] ∧
    (handler_exec buildOk retOk thr r).filter isFreeEvt = [Event.freeThr] ∧
    (handler_exec buildOk retOk thr r).getLast? = some Event.freeThr ∧
    (∀ cp : CancelPoint,
      (nativethread_run_thread cp buildOk retOk thr).filter isFreeEvt =
        [Event.freeThr]) ∧
    (∀ (args : List PyObj) (o : LaunchOracle) (t : ThreadInfo),
      (do_interruptably args o).ctx = some t →
      (do_interruptably args o).events.filter isFreeEvt = []) := by
  refine ⟨?_, ?_, ?_, ?_, ?_⟩
  · cases buildOk <;> cases retOk <;> rfl
  · cases buildOk <;> cases retOk <;> rfl
  · cases buildOk <;> cases retOk <;> rfl
  · intro cp; cases cp <;> cases buildOk <;> cases retOk <;> rfl
  · intro args o t hctx
    rcases launch_events_shape args o with ⟨hnone, _⟩ | ⟨t2, hsome, hev⟩
    · rw [hnone] at hctx; cases hctx
    · rw [hev]; rfl

theorem handler_exec_releases_all_witness :
    (do_interruptably sampleArgs sampleOk).events.filter isFreeEvt = [] :=
  (handler_exec_releases_all true true ⟨1, 2, 3, 4, 7⟩ 1).2.2.2.2
    sampleArgs sampleOk ⟨1, 2, 3, 4, 7⟩ (by decide)

/-- C5: the err_cbak callback is never invoked on any execution path of any
operation; it is only retained at launch and released once at completion. -/
theorem err_cbak_unreachable (thr : ThreadInfo)
    (h1 : thr.err_cbak ≠ thr.ok_cbak) (h2 : thr.err_cbak ≠ thr.cancel_cbak) :
    (∀ (cp : CancelPoint) (buildOk retOk : Bool) (a : Nat),
      Event.callCb thr.err_cbak a ∉
        nativethread_run_thread cp buildOk retOk thr) ∧
    (∀ (args : List PyObj) (o : LaunchOracle),
      (do_interruptably args o).events.filter isCall = []) ∧
    (∀ (args : List PyObj) (q : Nat),
      (interrupt args q).events.filter isCall = []) ∧
    (∀ (buildOk retOk : Bool) (r : Nat),
      (handler_exec buildOk retOk thr r).filter isDecrefObj =
        [Event.decref thr.ok_cbak, Event.decref thr.cancel_cbak,
         Event.decref thr.err_cbak, Event.decref thr.data]) := by
  refine ⟨?_, ?_, ?_, ?_⟩
  · intro cp buildOk retOk a
    cases cp <;> cases buildOk <;> cases retOk <;>
      simp [nativethread_run_thread, nativethread_cancel_handler,
        handler_exec, h1, h2]
  · intro args o
    rcases launch_events_shape args o with ⟨_, hE | hE | ⟨t, hE⟩⟩ | ⟨t, _, hE⟩ <;>
      rw [hE] <;> rfl
  · intro args q
    exact (interrupt_trace_clean args q).2.1
  · intro buildOk retOk r
    cases buildOk <;> cases retOk <;> rfl

theorem err_cbak_unreachable_witness :
    Event.callCb 3 4 ∉
      nativethread_run_thread CancelPoint.never true true ⟨1, 2, 3, 4, 7⟩ :=
  (err_cbak_unreachable ⟨1, 2, 3, 4, 7⟩ (by decide) (by decide)).1
    CancelPoint.never true true 4


/-- C1 (amended): for every context handed off by a successful launch, when
the callback bridge's argument-tuple allocation succeeds, exactly one of the
ok and cancel callbacks is invoked, exactly once, with the identity of the
original arg object, and the ThreadInfo is freed only after that invocation;
on every path the ThreadInfo is freed exactly once; and a successful launch
stores the original argument identities in the handed-off context. -/
theorem exactly_one_completion_callback :
    (∀ (cp : CancelPoint) (retOk : Bool) (thr : ThreadInfo),
      ∃ (cb : Nat) (l1 l2 : List Event),
        (cb = thr.ok_cbak ∨ cb = thr.cancel_cbak) ∧
        nativethread_run_thread cp true retOk thr =
          l1 ++ Event.callCb cb thr.data :: l2 ∧
        l1.filter isCall = [] ∧ l2.filter isCall = [] ∧
        l1.filter isFreeEvt = [] ∧ l2.filter isFreeEvt = [Event.freeThr]) ∧
    (∀ (cp : CancelPoint) (buildOk retOk : Bool) (thr : ThreadInfo),
      (nativethread_run_thread cp buildOk retOk thr).filter isFreeEvt =
        [Event.freeThr]) ∧
    (∀ (aid : Nat) (n : Int) (b c d e : PyObj) (o : LaunchOracle),
      o.mallocThr = true → (-(2 ^ 63) ≤ n ∧ n < 2 ^ 63) →
      (b.isCallable && c.isCallable && d.isCallable) = true →
      pthread_chain o = 0 →
      (do_interruptably [⟨aid, PyVal.vint n⟩, b, c, d, e] o).ctx =
        some ⟨b.id, c.id, d.id, e.id, n⟩) := by
  refine ⟨?_, ?_, launch_success_ctx⟩
  · intro cp retOk thr
    cases cp with
    | beforeRoutine =>
        obtain ⟨l1, l2, h⟩ := prepend_call_split
          [Event.cleanupPush, Event.setcancelstate true,
           Event.setcanceltypeAsync] retOk thr thr.cancel_cbak rfl rfl
        exact ⟨thr.cancel_cbak, l1, l2, Or.inr rfl, h⟩
    | duringRoutine =>
        obtain ⟨l1, l2, h⟩ := prepend_call_split
          [Event.cleanupPush, Event.setcancelstate true,
           Event.setcanceltypeAsync, Event.routineStart] retOk thr
          thr.cancel_cbak rfl rfl
        exact ⟨thr.cancel_cbak, l1, l2, Or.inr rfl, h⟩
    | afterRoutine =>
        obtain ⟨l1, l2, h⟩ := prepend_call_split
          [Event.cleanupPush, Event.setcancelstate true,
           Event.setcanceltypeAsync, Event.routineStart, Event.routineRet]
          retOk thr thr.cancel_cbak rfl rfl
        exact ⟨thr.cancel_cbak, l1, l2, Or.inr rfl, h⟩
    | afterDisable =>
        obtain ⟨l1, l2, h⟩ := prepend_call_split
          [Event.cleanupPush, Event.setcancelstate true,
           Event.setcanceltypeAsync, Event.routineStart, Event.routineRet,
           Event.setcancelstate false, Event.cleanupPop] retOk thr
          thr.ok_cbak rfl rfl
        exact ⟨thr.ok_cbak, l1, l2, Or.inl rfl, h⟩
    | never =>
        obtain ⟨l1, l2, h⟩ := prepend_call_split
          [Event.cleanupPush, Event.setcancelstate true,
           Event.setcanceltypeAsync, Event.routineStart, Event.routineRet,
           Event.setcancelstate false, Event.cleanupPop] retOk thr
          thr.ok_cbak rfl rfl
        exact ⟨thr.ok_cbak, l1, l2, Or.inl rfl, h⟩
  · intro cp buildOk retOk thr
    cases cp <;> cases buildOk <;> cases retOk <;> rfl

theorem exactly_one_completion_callback_witness :
    (do_interruptably
        [⟨10, PyVal.vint 7⟩, ⟨1, PyVal.vplain true⟩, ⟨2, PyVal.vplain true⟩,
         ⟨3, PyVal.vplain true⟩, ⟨4, PyVal.vplain false⟩] sampleOk).ctx =
      some ⟨1, 2, 3, 4, 7⟩ :=
  exactly_one_completion_callback.2.2 10 7 ⟨1, PyVal.vplain true⟩
    ⟨2, PyVal.vplain true⟩ ⟨3, PyVal.vplain true⟩ ⟨4, PyVal.vplain false⟩
    sampleOk rfl (by decide) rfl rfl

/-- C1 counterexample: a successful launch (all external steps succeed)
whose spawned thread runs to completion but whose bridge tuple allocation
fails invokes no completion callback at all, refuting the claim that exactly
one of the two callbacks is always invoked for every successful launch; the
context is nonetheless freed. -/
theorem exactly_one_completion_callback_cex :
    (do_interruptably
        [⟨10, PyVal.vint 7⟩, ⟨1, PyVal.vplain true⟩, ⟨2, PyVal.vplain true⟩,
         ⟨3, PyVal.vplain true⟩, ⟨4, PyVal.vplain false⟩] sampleOk).ret =
      .ok ⟨50, PyVal.vcapsule THREAD_HANDLE_NAME 99⟩ ∧
    (do_interruptably
        [⟨10, PyVal.vint 7⟩, ⟨1, PyVal.vplain true⟩, ⟨2, PyVal.vplain true⟩,
         ⟨3, PyVal.vplain true⟩, ⟨4, PyVal.vplain false⟩] sampleOk).ctx =
      some ⟨1, 2, 3, 4, 7⟩ ∧
    (nativethread_run_thread CancelPoint.never false true
        ⟨1, 2, 3, 4, 7⟩).filter isCall = [] ∧
    (nativethread_run_thread CancelPoint.never false true
        ⟨1, 2, 3, 4, 7⟩).filter isFreeEvt = [Event.freeThr] := by decide

/-- C2: at the failing inputs, launch-time errors do not unwind cleanly.
With pthread_create failing with EAGAIN, the call reports the distinguishing
error and frees the ThreadInfo but never releases the four references it
retained.  With the handle-allocation malloc failing after a successful
spawn, the call reports an error even though the thread is already running,
and the launching call frees nothing. -/
theorem launch_error_unwind_bug :
    (do_interruptably
        [⟨10, PyVal.vint 7⟩, ⟨1, PyVal.vplain true⟩, ⟨2, PyVal.vplain true⟩,
         ⟨3, PyVal.vplain true⟩, ⟨4, PyVal.vplain false⟩]
        ⟨true, 0, 0, EAGAIN, 99, true, true, 50⟩).ret =
      .error (.systemError
        "system could not allocate resources for a new thread") ∧
    (do_interruptably
        [⟨10, PyVal.vint 7⟩, ⟨1, PyVal.vplain true⟩, ⟨2, PyVal.vplain true⟩,
         ⟨3, PyVal.vplain true⟩, ⟨4, PyVal.vplain false⟩]
        ⟨true, 0, 0, EAGAIN, 99, true, true, 50⟩).events =
      [Event.incref 1, Event.incref 2, Event.incref 3, Event.incref 4,
       Event.freeThr] ∧
    (do_interruptably
        [⟨10, PyVal.vint 7⟩, ⟨1, PyVal.vplain true⟩, ⟨2, PyVal.vplain true⟩,
         ⟨3, PyVal.vplain true⟩, ⟨4, PyVal.vplain false⟩]
        ⟨true, 0, 0, EAGAIN, 99, true, true, 50⟩).events.filter isDecrefObj =
      [] ∧
    (do_interruptably
        [⟨10, PyVal.vint 7⟩, ⟨1, PyVal.vplain true⟩, ⟨2, PyVal.vplain true⟩,
         ⟨3, PyVal.vplain true⟩, ⟨4, PyVal.vplain false⟩]
        ⟨true, 0, 0, 0, 99, false, true, 50⟩).ret = .error .memoryError ∧
    (do_interruptably
        [⟨10, PyVal.vint 7⟩, ⟨1, PyVal.vplain true⟩, ⟨2, PyVal.vplain true⟩,
         ⟨3, PyVal.vplain true⟩, ⟨4, PyVal.vplain false⟩]
        ⟨true, 0, 0, 0, 99, false, true, 50⟩).events =
      [Event.incref 1, Event.incref 2, Event.incref 3, Event.incref 4,
       Event.spawn] ∧
    (do_interruptably
        [⟨10, PyVal.vint 7⟩, ⟨1, PyVal.vplain true⟩, ⟨2, PyVal.vplain true⟩,
         ⟨3, PyVal.vplain true⟩, ⟨4, PyVal.vplain false⟩]
        ⟨true, 0, 0, 0, 99, false, true, 50⟩).ctx =
      some ⟨1, 2, 3, 4, 7⟩ := by decide

end NativeThread
